import Mathlib

/-!
Shallow embedding of `react-hook-weather` (src/src/useWeather.ts).

The whole substantive source is the React hook `useWeather`:

  const useWeather = (config: OpenMeteoForecastConfig) => {
    const [response, setResponse] = useState<WeatherApiResponse[]>();
    const url = "https://api.open-meteo.com/v1/forecast";
    useCallback(async () => {
      const result = await fetchWeatherApi(url, config);
      setResponse(result);
    }, [url, config]);
    return { response };
  };

We embed one render of the hook as a state transformer over
  * the per-component hook state (the `useState` cell holding `response`,
    plus the dependency cell kept by `useCallback`), and
  * an explicit world recording every invocation of the injected fetch
    capability `fetchWeatherApi` and the contents of browser local storage
    (the persistence medium the README/JSDoc claim is used).
The opaque SDK payload type `WeatherApiResponse` is a type parameter `R`;
the hook state stores `Option (List R)` because the cell is
`useState<WeatherApiResponse[]>()`, initially `undefined`.
-/

namespace ReactHookWeather

/-- Weather models available for forecasting (source type `OpenMeteoWeatherModel`). -/
inductive OpenMeteoWeatherModel where
  | auto
  | ECMWF_IFS
  | GFS
  | GEM
  | ICON
  | METEO_FRANCE
  | FMI_HIRLAM
  | JMA_SEAM
  | METNO_NORDIC
deriving DecidableEq, Repr

/-- `temperature_unit` values: "celsius" | "fahrenheit" (default "celsius"). -/
inductive TemperatureUnit where
  | celsius
  | fahrenheit
deriving DecidableEq, Repr

/-- `windspeed_unit` values: "kmh" | "mph" | "ms" | "kn" (default "kmh"). -/
inductive WindspeedUnit where
  | kmh
  | mph
  | ms
  | kn
deriving DecidableEq, Repr

/-- `precipitation_unit` values: "mm" | "inch" (default "mm"). -/
inductive PrecipitationUnit where
  | mm
  | inch
deriving DecidableEq, Repr

/-- `timeformat` values: "iso8601" | "unixtime" (default "iso8601"). -/
inductive TimeFormat where
  | iso8601
  | unixtime
deriving DecidableEq, Repr

/-- `cell_selection` values: "nearest" | "land" (default "nearest"). -/
inductive CellSelection where
  | nearest
  | land
deriving DecidableEq, Repr

/-- Source interface `OpenMeteoForecastConfig`.  JS numbers carry no arithmetic
in this code (coordinates are only passed through and compared), so they are
embedded as `Rat` / `Int`; optional fields are `Option`, `none` = absent. -/
structure OpenMeteoForecastConfig where
  latitude : Rat
  longitude : Rat
  hourly : Option String := none
  daily : Option String := none
  current_weather : Option Bool := none
  temperature_unit : Option TemperatureUnit := none
  windspeed_unit : Option WindspeedUnit := none
  precipitation_unit : Option PrecipitationUnit := none
  timezone : Option String := none
  timeformat : Option TimeFormat := none
  past_days : Option Int := none
  forecast_days : Option Int := none
  forecast_hours : Option Int := none
  forecast_minutes : Option Int := none
  start_date : Option String := none
  end_date : Option String := none
  start_hour : Option String := none
  end_hour : Option String := none
  models : Option OpenMeteoWeatherModel := none
  cell_selection : Option CellSelection := none
deriving DecidableEq, Repr

/-- The validity conditions stated in the source's doc comments:
latitude in [-90, 90], longitude in [-180, 180], and "At least one of
`hourly`, `daily`, or `current_weather` must be provided". -/
def validConfig (c : OpenMeteoForecastConfig) : Bool :=
  decide ((-90 : Rat) ≤ c.latitude) && decide (c.latitude ≤ (90 : Rat)) &&
  decide ((-180 : Rat) ≤ c.longitude) && decide (c.longitude ≤ (180 : Rat)) &&
  (c.hourly.isSome || c.daily.isSome || c.current_weather.isSome)

/-- JavaScript exceptions that the spec's taxonomy names.  The embedding of
the render returns `Except JsException _` so that "fails with
InvalidConfigError" is statable; the source body contains no `throw` and
never executes anything that can reject, so every embedded run is `.ok`. -/
inductive JsException where
  | invalidConfigError
  | fetchError (msg : String)
  | cacheIOError (msg : String)
deriving DecidableEq, Repr

/-- Per-component-instance hook state: the `useState` cell for `response`
(initially `undefined`), and the dependency tuple `[url, config]` that
`useCallback` last memoized (initially absent, before the first render). -/
structure HookState (R : Type) where
  response : Option (List R)
  callbackDeps : Option (String × OpenMeteoForecastConfig)
deriving DecidableEq, Repr

/-- Hook state at mount: `useState<WeatherApiResponse[]>()` starts the cell
at `undefined`, and no callback has been memoized yet. -/
def initialHookState (R : Type) : HookState R :=
  { response := none, callbackDeps := none }

/-- The world outside the component: the log of every invocation of the
injected `fetchWeatherApi` capability (url and params of each call), and
browser local storage as a key-value list (the store the JSDoc/README say
the hook caches into). -/
structure World where
  fetchWeatherApiCalls : List (String × OpenMeteoForecastConfig)
  localStorage : List (String × String)
deriving DecidableEq, Repr

/-- A world in which no fetch has happened and local storage is empty. -/
def emptyWorld : World :=
  { fetchWeatherApiCalls := [], localStorage := [] }

/-- What the hook returns to the caller: the object `{ response }`. -/
structure HookReturn (R : Type) where
  response : Option (List R)
deriving DecidableEq, Repr

/-- The constant `url` in the hook body. -/
def openMeteoUrl : String := "https://api.open-meteo.com/v1/forecast"

/-- The injected fetch capability `fetchWeatherApi(url, params)` from the
`openmeteo` package.  Invoking it records the call in the world; its outcome
(success payload or rejection) is supplied by the environment, since the wire
protocol is external to this core. -/
def fetchWeatherApi (R : Type) (url : String) (params : OpenMeteoForecastConfig)
    (outcome : Except JsException (List R)) (w : World) :
    Except JsException (List R) × World :=
  (outcome, { w with fetchWeatherApiCalls := w.fetchWeatherApiCalls ++ [(url, params)] })

/-- The async closure passed to `useCallback`:
`async () => { const result = await fetchWeatherApi(url, config); setResponse(result); }`.
Running it invokes the fetch capability and, on success, `setResponse` writes
the payload into the hook state; on rejection `setResponse` is not reached.
This definition records what the closure WOULD do if it were ever invoked;
the render below builds the closure but no code path runs it. -/
def fetchCallbackBody (R : Type) (url : String) (config : OpenMeteoForecastConfig)
    (outcome : Except JsException (List R)) (s : HookState R) (w : World) :
    HookState R × World :=
  match fetchWeatherApi R url config outcome w with
  | (.ok result, w') => ({ s with response := some result }, w')
  | (.error _, w') => (s, w')

/-- One render of `useWeather config` on a component instance with hook state
`s`, in world `w`.  The body: read the `response` cell, bind the constant
`url`, memoize the async closure under deps `[url, config]` — the expression
statement `useCallback(...)` discards the returned closure, and no effect
hook (no `useEffect`) is registered to run it — then return `{ response }`.
No executed expression throws, so the render always returns `.ok`. -/
def useWeather (R : Type) (config : OpenMeteoForecastConfig)
    (s : HookState R) (w : World) :
    Except JsException (HookReturn R × HookState R × World) :=
  let response := s.response
  let url := openMeteoUrl
  let _closure := fetchCallbackBody R url config
  let s' : HookState R := { s with callbackDeps := some (url, config) }
  .ok ({ response := response }, s', w)

/-- A sequence of renders of one component instance (mount, then re-renders,
possibly each with a different configuration object): collects the value
returned to the caller at each render and threads hook state and world. -/
def runRenders (R : Type) (configs : List OpenMeteoForecastConfig)
    (s : HookState R) (w : World) :
    List (HookReturn R) × HookState R × World :=
  match configs with
  | [] => ([], s, w)
  | c :: cs =>
    match useWeather R c s w with
    | .ok (ret, s', w') =>
      let rest := runRenders R cs s' w'
      (ret :: rest.1, rest.2)
    | .error _ => ([], s, w)

/-- `n` component instances mounting with the same configuration, one after
another on the single-threaded event loop (the spec's concurrency model):
each instance starts from the initial hook state and they share the world. -/
def mountMany (R : Type) (n : Nat) (config : OpenMeteoForecastConfig) (w : World) :
    List (HookReturn R) × World :=
  match n with
  | 0 => ([], w)
  | n + 1 =>
    match useWeather R config (initialHookState R) w with
    | .ok (ret, _, w') =>
      let rest := mountMany R n config w'
      (ret :: rest.1, rest.2)
    | .error _ => ([], w)

/-- The spec's observable `QueryState`, and how the hook's actual return value
`{ response }` reads as one: the hook exposes no `isLoading` and no `error`
field, so `response = undefined` can only be read as `Idle` and a payload as
`Ready`; `Loading` and `Failed` are not expressible from what it returns. -/
inductive QueryState (R : Type) where
  | idle
  | loading
  | ready (result : List R)
  | failed (e : JsException)
deriving DecidableEq, Repr

/-- Read the hook's returned object as a `QueryState`. -/
def observedState (R : Type) (ret : HookReturn R) : QueryState R :=
  match ret.response with
  | none => QueryState.idle
  | some r => QueryState.ready r

/-- Concrete configuration from the spec scenario:
`{lat:52.52, lon:13.405, current_weather:true}`. -/
def berlinConfig : OpenMeteoForecastConfig :=
  { latitude := 52.52, longitude := 13.405, current_weather := some true }

/-- Concrete invalid configuration: latitude 100 is outside [-90, 90]. -/
def badLatConfig : OpenMeteoForecastConfig :=
  { latitude := 100, longitude := 0, current_weather := some true }

/-- The scenario configuration pinned to the Berlin timezone. -/
def tzBerlinConfig : OpenMeteoForecastConfig :=
  { berlinConfig with timezone := some "Europe/Berlin" }

/-- The same configuration differing only in the `timezone` field. -/
def tzNewYorkConfig : OpenMeteoForecastConfig :=
  { berlinConfig with timezone := some "America/New_York" }

/-- The scenario configuration with `temperature_unit` explicitly set to its
documented default "celsius". -/
def explicitCelsiusConfig : OpenMeteoForecastConfig :=
  { berlinConfig with temperature_unit := some TemperatureUnit.celsius }

end ReactHookWeather

namespace ReactHookWeather

/-- Across a render sequence: every returned object is `{ response := s.response }`
for the starting state `s`, the `response` cell is never written, and the world
(fetch log and local storage) is returned untouched. -/
theorem runRenders_eq (R : Type) (configs : List OpenMeteoForecastConfig)
    (s : HookState R) (w : World) :
    (runRenders R configs s w).1
        = configs.map (fun _ => ({ response := s.response } : HookReturn R)) ∧
      (runRenders R configs s w).2.1.response = s.response ∧
      (runRenders R configs s w).2.2 = w := by
  induction configs generalizing s with
  | nil => simp [runRenders]
  | cons c cs ih =>
    simpa [runRenders, useWeather] using
      ih { s with callbackDeps := some (openMeteoUrl, c) }

/-- Mounting `n` instances with one configuration: every instance observes
`response = undefined` and the world is returned untouched. -/
theorem mountMany_eq (R : Type) (n : Nat) (c : OpenMeteoForecastConfig) (w : World) :
    (mountMany R n c w).1 = List.replicate n ({ response := none } : HookReturn R) ∧
      (mountMany R n c w).2 = w := by
  induction n generalizing w with
  | zero => simp [mountMany]
  | succ n ih =>
    simpa [mountMany, useWeather, initialHookState, List.replicate] using ih w

/-- Claim C1: for every configuration and any sequence of renders from mount,
the hook builds its async fetch callback via `useCallback` but never invokes
it: the `fetchWeatherApi` call log is left exactly as it was (no fetch ever
happens), and the returned `response` field is `undefined` (`none`) at every
render, forever. -/
theorem useWeather_never_fetches (R : Type)
    (configs : List OpenMeteoForecastConfig) (w : World) :
    (runRenders R configs (initialHookState R) w).2.2.fetchWeatherApiCalls
        = w.fetchWeatherApiCalls ∧
      (runRenders R configs (initialHookState R) w).1
        = configs.map (fun _ => { response := none }) :=
  ⟨congrArg World.fetchWeatherApiCalls
      (runRenders_eq R configs (initialHookState R) w).2.2,
    (runRenders_eq R configs (initialHookState R) w).1⟩

/-- Claim C2 (code bug at the failing input): two concurrent callers with the
same configuration `{lat:52.52, lon:13.405, current_weather:true}` and no
existing cache entry result in ZERO invocations of the injected fetch
capability — not the claimed exactly one — and both callers observe
`response = undefined` rather than the outcome of any fetch. -/
theorem dedup_scenario_zero_fetches :
    (mountMany Nat 2 berlinConfig emptyWorld).2.fetchWeatherApiCalls.length = 0 ∧
      (mountMany Nat 2 berlinConfig emptyWorld).1
        = [{ response := none }, { response := none }] :=
  ⟨rfl, rfl⟩

/-- Claim C3 (code bug at the failing input): the scenario configuration is
queried three times (modelling times T, T+5min and T+20min; the code never
reads a clock, so elapsed time cannot influence it): no query returns a
cached or fetched value — all three return `undefined` — and zero fetches
occur in total, where the claim expects the T+20min query to trigger exactly
one new fetch. -/
theorem freshness_scenario_zero_fetches :
    (runRenders Nat [berlinConfig, berlinConfig, berlinConfig]
          (initialHookState Nat) emptyWorld).1
        = [{ response := none }, { response := none }, { response := none }] ∧
      (runRenders Nat [berlinConfig, berlinConfig, berlinConfig]
          (initialHookState Nat) emptyWorld).2.2 = emptyWorld :=
  ⟨rfl, rfl⟩

/-- Claim C4 counterexample: the configuration with latitude 100 (outside
[-90, 90]) does NOT fail validation: `useWeather` returns normally with
`.ok` — it raises no `InvalidConfigError` (nor any other exception). -/
theorem invalid_config_not_rejected :
    validConfig badLatConfig = false ∧
      useWeather Nat badLatConfig (initialHookState Nat) emptyWorld
        = .ok ({ response := none },
            { response := none, callbackDeps := some (openMeteoUrl, badLatConfig) },
            emptyWorld) :=
  ⟨by decide, rfl⟩

/-- Claim C4 amended: a configuration with out-of-range coordinates or no
granularity field is accepted without any validation failure — `useWeather`
returns `.ok` with `response = undefined` — and, as for every configuration,
no network call and no cache access occurs (the world is returned
untouched). -/
theorem invalid_config_accepted_no_access (R : Type)
    (c : OpenMeteoForecastConfig) (w : World) (_h : validConfig c = false) :
    useWeather R c (initialHookState R) w
      = .ok ({ response := none },
          { response := none, callbackDeps := some (openMeteoUrl, c) }, w) :=
  rfl

/-- Witness for the amended C4 theorem at the concrete invalid input. -/
theorem invalid_config_accepted_no_access_witness :
    useWeather Nat badLatConfig (initialHookState Nat) emptyWorld
      = .ok ({ response := none },
          { response := none, callbackDeps := some (openMeteoUrl, badLatConfig) },
          emptyWorld) :=
  invalid_config_accepted_no_access Nat badLatConfig emptyWorld (by decide)

/-- Claim C5 (code bug): the rejection scenario is unreachable and retry never
happens: across any first batch of calls and any subsequent batch, the
`fetchWeatherApi` call log never grows — the fetch capability is never
invoked, so it can never reject, no waiter is ever rejected with its error,
and no subsequent call attempts (let alone re-attempts) a fetch. -/
theorem fetch_rejection_unreachable (R : Type)
    (first subsequent : List OpenMeteoForecastConfig) (w : World) :
    (runRenders R (first ++ subsequent)
        (initialHookState R) w).2.2.fetchWeatherApiCalls = w.fetchWeatherApiCalls :=
  congrArg World.fetchWeatherApiCalls
    (runRenders_eq R (first ++ subsequent) (initialHookState R) w).2.2

/-- Claim C6 (code bug): the entry point never drives the observable state
beyond `Idle`: under any sequence of re-invocations with any (changing)
configurations, every value the hook exposes reads as `Idle`
(`response = undefined`, and no `isLoading` or `error` field exists at all),
so `Loading`, `Ready` and `Failed` are never reached and re-invocation with a
new configuration triggers no re-resolution. -/
theorem query_state_never_leaves_idle (R : Type)
    (configs : List OpenMeteoForecastConfig) (w : World) :
    ((runRenders R configs (initialHookState R) w).1.map (observedState R))
      = List.replicate configs.length QueryState.idle := by
  rw [(runRenders_eq R configs (initialHookState R) w).1, List.map_map]
  induction configs with
  | nil => rfl
  | cons c cs ih => simpa [observedState, initialHookState, List.replicate] using ih

/-- Claim C7 (code bug at the failing input): the two configurations differing
only in `timezone` are distinct values, yet the code derives no cache key and
caches neither: rendering with both leaves the world — local storage
included — exactly as it was, and both renders return `undefined`; nothing is
"cached independently" because nothing is cached at all. -/
theorem timezone_configs_nothing_cached :
    tzBerlinConfig ≠ tzNewYorkConfig ∧
      (runRenders Nat [tzBerlinConfig, tzNewYorkConfig]
          (initialHookState Nat) emptyWorld).2.2 = emptyWorld ∧
      (runRenders Nat [tzBerlinConfig, tzNewYorkConfig]
          (initialHookState Nat) emptyWorld).1
        = [{ response := none }, { response := none }] :=
  ⟨by simp [tzBerlinConfig, tzNewYorkConfig, berlinConfig], rfl, rfl⟩

/-- Claim C8 (code bug at the failing input): the configuration with
`temperature_unit` explicitly set to its documented default "celsius" and the
one with the field omitted are distinct values to the code, and no
normalization or cache-key derivation is applied to either: each render uses
the raw configuration verbatim as the memoized callback dependency and writes
nothing anywhere, so neither configuration "normalizes to a cache key". -/
theorem default_field_not_normalized :
    explicitCelsiusConfig ≠ berlinConfig ∧
      (useWeather Nat explicitCelsiusConfig (initialHookState Nat) emptyWorld
        = .ok ({ response := none },
            { response := none,
              callbackDeps := some (openMeteoUrl, explicitCelsiusConfig) },
            emptyWorld)) ∧
      (useWeather Nat berlinConfig (initialHookState Nat) emptyWorld
        = .ok ({ response := none },
            { response := none, callbackDeps := some (openMeteoUrl, berlinConfig) },
            emptyWorld)) :=
  ⟨by simp [explicitCelsiusConfig, berlinConfig], rfl, rfl⟩

/-- Claim C9: the hook touches no persistent store — any render sequence
leaves local storage exactly as it was — and the value a fresh instance
returns is independent of the world, which carries every prior invocation's
fetch log and storage contents; hence the observable result is independent of
any prior invocation's configuration or outcome. -/
theorem useWeather_no_storage_no_history (R : Type)
    (configs : List OpenMeteoForecastConfig) (c : OpenMeteoForecastConfig)
    (w w1 w2 : World) :
    (runRenders R configs (initialHookState R) w).2.2.localStorage
        = w.localStorage ∧
      (useWeather R c (initialHookState R) w1).map (fun x => x.1)
        = (useWeather R c (initialHookState R) w2).map (fun x => x.1) :=
  ⟨congrArg World.localStorage
      (runRenders_eq R configs (initialHookState R) w).2.2,
    rfl⟩

/-- Claim C10: for any two configurations — out-of-range coordinates and
missing granularity fields included — a fresh invocation of the hook returns
the observably equal value `{ response := undefined }` without throwing: the
output does not depend on the input configuration. -/
theorem useWeather_output_independent_of_config (R : Type)
    (c1 c2 : OpenMeteoForecastConfig) (w1 w2 : World) :
    (useWeather R c1 (initialHookState R) w1).map (fun x => x.1)
        = Except.ok { response := none } ∧
      (useWeather R c1 (initialHookState R) w1).map (fun x => x.1)
        = (useWeather R c2 (initialHookState R) w2).map (fun x => x.1) :=
  ⟨rfl, rfl⟩

end ReactHookWeather
